import Mathlib

set_option maxHeartbeats 1000000

/-!
Shallow embedding of `trainer/plugins/visdom_logger.py`.

The module is a thin adapter between a training loop and a remote Visdom
visualization server.  We model:

* the nested statistics mapping `trainer.stats` as the inductive `Stat`
  (Python dicts become association lists);
* the remote Visdom client as a trace of emitted calls (`VizCall`);
  a remote call that returns a window identifier receives the server reply
  as an explicit `reply : Nat` argument, so theorems quantify over every
  possible server answer;
* Python exceptions (`ValueError`, `KeyError`, `TypeError`) as the
  `VisdomError` type; fallible operations return `Except VisdomError`.

Each logger class becomes a state structure plus pure `init` / `log`
functions on it returning the successor state together with the list of
remote calls issued by that invocation.
-/

/-- A value in the nested statistics mapping `self.trainer.stats`:
either a leaf value or a nested string-keyed mapping (a Python dict,
modelled as an association list). -/
inductive Stat where
  | leaf (v : Int)
  | node (entries : List (String × Stat))

instance : Inhabited Stat := ⟨Stat.leaf 0⟩

/-- Python exceptions raised by the source: `ValueError` (invalid plot
type, invalid update type, wrong arity), `KeyError` (missing key during
`stat[f]`), `TypeError` (subscripting a non-mapping leaf). -/
inductive VisdomError where
  | valueError (msg : String)
  | keyError (key : String)
  | typeError (msg : String)

/-- The `opts` mapping (a Python dict); its values are irrelevant to the
embedded logic, only key membership is consulted. -/
abbrev Opts := List (String × String)

/-- Python `'k' in opts` : key membership in the options dict. -/
def optsHasKey (o : Opts) (k : String) : Bool :=
  (List.lookup k o).isSome

/-- A remote call issued to the Visdom client.  `scatter`/`line` create a
plot window, `updateTrace` appends to an existing trace, `text` renders a
text panel, `generic` is `VisdomLogger`'s dynamically dispatched plot
method, `save` persists the named server environments. -/
inductive VizCall where
  | scatter (X : List (List Stat)) (win : Option Nat) (env : Option String) (opts : Opts)
  | line (X : List (List Stat)) (win : Option Nat) (env : Option String) (opts : Opts)
  | updateTrace (X Y : List Stat) (win : Option Nat) (env : Option String) (opts : Opts)
  | text (txt : List String) (win : Option Nat) (env : Option String) (opts : Opts)
  | generic (method : String) (args : List Stat) (win : Option Nat) (env : Option String) (opts : Opts)
  | save (envs : Option (List String))

/-- Whether a remote call is a `save` (session persistence) call. -/
def VizCall.isSave : VizCall → Bool
  | .save _ => true
  | _ => false

/-- Whether a remote call creates a new plot window (`viz.scatter` or
`viz.line`). -/
def VizCall.isCreate : VizCall → Bool
  | .scatter _ _ _ _ => true
  | .line _ _ _ _ => true
  | _ => false

/-- Number of session-persistence calls in a trace. -/
def countSave (cs : List VizCall) : Nat :=
  (cs.filter VizCall.isSave).length

/-- The two chart operations `VisdomPlotLogger` can hold in `self.chart`:
`self.viz.scatter` or `self.viz.line`. -/
inductive ChartOp where
  | scatter
  | line
deriving DecidableEq

/-- Invoking the stored chart operation, as in `self.chart(X=..., win=...,
env=..., opts=...)`. -/
def ChartOp.call : ChartOp → List (List Stat) → Option Nat → Option String → Opts → VizCall
  | .scatter, X, w, e, o => VizCall.scatter X w e o
  | .line, X, w, e, o => VizCall.line X w e o

/-- Python `stat[f]` on a value from the statistics mapping: a dict lookup
that raises `KeyError` when the key is absent, and `TypeError` when the
value subscripted is a leaf rather than a mapping. -/
def Stat.getItem : Stat → String → Except VisdomError Stat
  | Stat.node m, k =>
      match List.lookup k m with
      | some s => Except.ok s
      | none => Except.error (VisdomError.keyError k)
  | Stat.leaf _, _ => Except.error (VisdomError.typeError "object is not subscriptable")

/-- The field-resolution loop of `BaseVisdomLogger._log_all` (lines 54-57):
`stat = self.trainer.stats; for f in field: stat = stat[f]`, yielding the
value appended to `results`.  (The loop also tracks `parent`, which the
method never reads.) -/
def resolveField : Stat → List String → Except VisdomError Stat
  | stats, [] => Except.ok stats
  | stats, f :: rest =>
      match Stat.getItem stats f with
      | Except.ok s => resolveField s rest
      | Except.error e => Except.error e

/-- Sequential key lookup along a path, as a partial mapping: `some v` when
every key along the path is present, `none` otherwise.  Used to compare
`resolveField` against the specified access semantics. -/
def pathLookup : Stat → List String → Option Stat
  | s, [] => some s
  | Stat.node m, f :: rest =>
      match List.lookup f m with
      | some s => pathLookup s rest
      | none => none
  | Stat.leaf _, _ :: _ => none

/-- The first key along the path that is absent from the mapping it is
looked up in (`none` when resolution succeeds or fails only by
subscripting a leaf). -/
def firstMissingKey : Stat → List String → Option String
  | _, [] => none
  | Stat.node m, f :: rest =>
      match List.lookup f m with
      | some s => firstMissingKey s rest
      | none => some f
  | Stat.leaf _, _ :: _ => none

/-- Gathering all configured fields, as `BaseVisdomLogger._log_all` does
before passing `results` to `self.log`. -/
def logAllResults (stats : Stat) (fields : List (List String)) :
    Except VisdomError (List Stat) :=
  fields.mapM (resolveField stats)

/-- State of a `VisdomPlotLogger` instance: the lazily assigned window
identifier `win`, the environment `env`, the options mapping `opts`, the
configured field paths `fields`, and the chart operation `chart` chosen at
construction. -/
structure PlotLoggerState where
  win : Option Nat
  env : Option String
  opts : Opts
  fields : List (List String)
  chart : ChartOp

/-- `VisdomPlotLogger.__init__` (lines 136-147): after the base-class
field assignments, when the key `plot_type` is present in `opts` the
requested `plot_type` is validated against `valid_plot_types = {scatter,
line}` (raising `ValueError` for an unsupported name) and the matching
chart operation is stored; otherwise `self.chart = self.viz.scatter`
unconditionally. -/
def VisdomPlotLogger.init (plot_type : String) (fields : List (List String))
    (win : Option Nat) (env : Option String) (opts : Opts) :
    Except VisdomError PlotLoggerState :=
  if optsHasKey opts "plot_type" then
    match List.lookup plot_type [("scatter", ChartOp.scatter), ("line", ChartOp.line)] with
    | some op =>
        Except.ok { win := win, env := env, opts := opts, fields := fields, chart := op }
    | none =>
        Except.error (VisdomError.valueError
          ("plot_type " ++ plot_type ++ " not found. Must be one of scatter, line"))
  else
    Except.ok { win := win, env := env, opts := opts, fields := fields, chart := ChartOp.scatter }

/-- `VisdomPlotLogger.log` (lines 149-166).  With a stored window id the
arity of `args` is checked (`ValueError` unless exactly two values) and a
single `viz.updateTrace` call is issued with singleton `X`/`Y` arrays, the
stored window id, environment and options; its return value is discarded,
so the state is unchanged.  With no stored window id, the stored chart
operation is invoked once with `X = np.array([args])` and the returned
window identifier (the server reply) is stored in `win`. -/
def VisdomPlotLogger.log (s : PlotLoggerState) (args : List Stat) (reply : Nat) :
    Except VisdomError (PlotLoggerState × List VizCall) :=
  match s.win with
  | some w =>
      if args.length = 2 then
        Except.ok (s, [VizCall.updateTrace [args[0]!] [args[1]!] (some w) s.env s.opts])
      else
        Except.error (VisdomError.valueError
          "When logging to VisdomPlotLogger, must pass in x and y values (and optionally z).")
  | none =>
      Except.ok ({ s with win := some reply }, [s.chart.call [args] none s.env s.opts])

/-- State of a `VisdomTextLogger` instance: window id, environment,
options, field paths, the accumulated text buffer, and the accumulation
mode (`"REPLACE"` or `"APPEND"`). -/
structure TextLoggerState where
  win : Option Nat
  env : Option String
  opts : Opts
  fields : List (List String)
  text : String
  update_type : String

/-- `VisdomTextLogger.valid_update_types`. -/
def validUpdateTypes : List String := ["REPLACE", "APPEND"]

/-- `VisdomTextLogger.__init__` (lines 195-202): the text buffer starts
empty; the accumulation mode is validated against `valid_update_types`
(`ValueError` for anything else) and stored.  No remote call is made
during construction. -/
def VisdomTextLogger.init (fields : List (List String)) (win : Option Nat)
    (env : Option String) (opts : Opts) (update_type : String) :
    Except VisdomError TextLoggerState :=
  if update_type ∈ validUpdateTypes then
    Except.ok { win := win, env := env, opts := opts, fields := fields,
                text := "", update_type := update_type }
  else
    Except.error (VisdomError.valueError
      ("update type " ++ update_type ++ " not found. Must be one of REPLACE, APPEND"))

/-- `VisdomTextLogger.log` (lines 205-211): in `APPEND` mode with a
non-empty buffer the new text is joined after a `"<br>"` separator,
otherwise it replaces the buffer; then `viz.text([self.text], win=...,
env=..., opts=...)` is issued through `_viz_prototype`, which stores the
returned window identifier. -/
def VisdomTextLogger.log (s : TextLoggerState) (msg : String) (reply : Nat) :
    TextLoggerState × List VizCall :=
  let newText := if s.update_type = "APPEND" ∧ s.text ≠ "" then s.text ++ "<br>" ++ msg else msg
  ({ s with text := newText, win := some reply },
   [VizCall.text [newText] s.win s.env s.opts])

/-- State of a generic `VisdomLogger` instance, whose chart method is
resolved by name from the Visdom client at construction. -/
structure GenericLoggerState where
  win : Option Nat
  env : Option String
  opts : Opts
  fields : List (List String)
  plot_type : String

/-- `VisdomLogger.log` (lines 124-125): forwards the values through
`_viz_prototype` to the named chart method, merging in the stored window
id, environment and options, and stores the returned window id. -/
def VisdomLogger.log (s : GenericLoggerState) (args : List Stat) (reply : Nat) :
    GenericLoggerState × List VizCall :=
  ({ s with win := some reply },
   [VizCall.generic s.plot_type args s.win s.env s.opts])

/-- Modelled from the spec: `Logger.epoch` — the superclass epoch hook
invoked by `BaseVisdomLogger.epoch` via `super().epoch(epoch_idx)` — lives
in `trainer/plugins/logger.py`, which is not under `src/`.  Per the spec,
it resolves every configured field path against the statistics mapping and
forwards the resolved values to the subclass `log` operation, so the
remote calls it emits are exactly the field-logging calls of that `log`
invocation, here taken as a parameter. -/
def Logger.epochCalls (logCalls : List VizCall) : List VizCall :=
  logCalls

/-- `BaseVisdomLogger.epoch` (lines 61-63): runs the superclass epoch hook
(whose emitted calls are the subclass field-logging calls) and then issues
one `self.viz.save()` call. -/
def BaseVisdomLogger.epoch (logCalls : List VizCall) : List VizCall :=
  Logger.epochCalls logCalls ++ [VizCall.save none]

/-- State of a `VisdomSaver` plugin: the configured environment list and
the hook names under which `self.save` was registered by the `setattr`
loop of `__init__`. -/
structure VisdomSaverState where
  envs : Option (List String)
  hooks : List String

/-- `VisdomSaver.__init__` (lines 71-76): stores the environment list and,
for every `(_, name)` pair of the interval, registers `self.save` under
attribute `name`. -/
def VisdomSaver.init (envs : Option (List String)) (interval : List (Nat × String)) :
    VisdomSaverState :=
  { envs := envs, hooks := interval.map Prod.snd }

/-- `VisdomSaver.save` (lines 81-82): one `viz.save(self.envs)` call
carrying the full configured environment list. -/
def VisdomSaver.save (s : VisdomSaverState) : List VizCall :=
  [VizCall.save s.envs]

/-- Modelled from the spec: the trainer's hook dispatch (the `Plugin`
machinery in `trainer/plugins/plugin.py`, not under `src/`) invokes, at
each hook firing, the plugin attribute named after the hook.  For a
`VisdomSaver` that attribute is `self.save` when the hook name was in the
construction interval, and absent otherwise. -/
def VisdomSaver.fireHook (s : VisdomSaverState) (name : String) : List VizCall :=
  if name ∈ s.hooks then VisdomSaver.save s else []

/-! ## Theorems about the claims -/

/-- Claim C1: for every `VisdomPlotLogger` construction, if `opts` contains
the key `plot_type` then the chart operation chosen is the one named by the
requested plot kind (`scatter` or `line`) and an unsupported kind name
fails with `ValueError` (the UnsupportedPlotKind error); if `opts` lacks
that key, the chart operation is always `scatter`, regardless of the
requested kind. -/
theorem plotLogger_chart_selection (plot_type : String) (fields : List (List String))
    (win : Option Nat) (env : Option String) (opts : Opts) :
    (optsHasKey opts "plot_type" = true →
      (plot_type = "scatter" →
        VisdomPlotLogger.init plot_type fields win env opts =
          Except.ok { win := win, env := env, opts := opts, fields := fields,
                      chart := ChartOp.scatter }) ∧
      (plot_type = "line" →
        VisdomPlotLogger.init plot_type fields win env opts =
          Except.ok { win := win, env := env, opts := opts, fields := fields,
                      chart := ChartOp.line }) ∧
      (plot_type ≠ "scatter" → plot_type ≠ "line" →
        ∃ m, VisdomPlotLogger.init plot_type fields win env opts =
          Except.error (VisdomError.valueError m)))
    ∧ (optsHasKey opts "plot_type" = false →
        VisdomPlotLogger.init plot_type fields win env opts =
          Except.ok { win := win, env := env, opts := opts, fields := fields,
                      chart := ChartOp.scatter }) := by
  constructor
  · intro hkey
    refine ⟨?_, ?_, ?_⟩
    · intro hpt; subst hpt
      simp [VisdomPlotLogger.init, hkey, List.lookup]
    · intro hpt; subst hpt
      simp [VisdomPlotLogger.init, hkey, List.lookup]
    · intro h1 h2
      refine ⟨"plot_type " ++ plot_type ++ " not found. Must be one of scatter, line", ?_⟩
      have e1 : (plot_type == "scatter") = false := beq_eq_false_iff_ne.mpr h1
      have e2 : (plot_type == "line") = false := beq_eq_false_iff_ne.mpr h2
      simp [VisdomPlotLogger.init, hkey, List.lookup, e1, e2]
  · intro hkey
    simp [VisdomPlotLogger.init, hkey]

/-- Witness for C1 at concrete inputs: a requested `line` kind is honored
when `plot_type` is an options key, an unsupported kind then fails, and
without the key even `line` falls back to `scatter`. -/
theorem plotLogger_chart_selection_witness :
    VisdomPlotLogger.init "line" [] none none [("plot_type", "1")] =
      Except.ok { win := none, env := none, opts := [("plot_type", "1")], fields := [],
                  chart := ChartOp.line }
    ∧ (∃ m, VisdomPlotLogger.init "bogus" [] none none [("plot_type", "1")] =
        Except.error (VisdomError.valueError m))
    ∧ VisdomPlotLogger.init "line" [] none none [] =
        Except.ok { win := none, env := none, opts := [], fields := [],
                    chart := ChartOp.scatter } :=
  ⟨((plotLogger_chart_selection "line" [] none none [("plot_type", "1")]).1 rfl).2.1 rfl,
   ((plotLogger_chart_selection "bogus" [] none none [("plot_type", "1")]).1 rfl).2.2
     (by decide) (by decide),
   (plotLogger_chart_selection "line" [] none none []).2 rfl⟩

/-- Claim C9: constructing a `VisdomPlotLogger` whose `opts` does not
contain the key `plot_type` succeeds for every plot-kind string, including
kinds outside scatter/line: the validation is skipped and the chart falls
back to `scatter`, with no error raised. -/
theorem plotLogger_init_skips_validation (plot_type : String) (fields : List (List String))
    (win : Option Nat) (env : Option String) (opts : Opts)
    (hkey : optsHasKey opts "plot_type" = false) :
    VisdomPlotLogger.init plot_type fields win env opts =
      Except.ok { win := win, env := env, opts := opts, fields := fields,
                  chart := ChartOp.scatter } := by
  simp [VisdomPlotLogger.init, hkey]

/-- Witness for C9: the unsupported kind name `bogus` constructs
successfully when `opts` lacks the `plot_type` key. -/
theorem plotLogger_init_skips_validation_witness :
    optsHasKey [("title", "t")] "plot_type" = false
    ∧ VisdomPlotLogger.init "bogus" [] none none [("title", "t")] =
        Except.ok { win := none, env := none, opts := [("title", "t")], fields := [],
                    chart := ChartOp.scatter } :=
  ⟨rfl, plotLogger_init_skips_validation "bogus" [] none none [("title", "t")] rfl⟩

/-- Claim C3: with a stored window identifier, `VisdomPlotLogger.log`
with any number of positional values other than exactly two fails with
`ValueError` (the InvalidArgument error); the error result carries no
remote call, so the failure happens before any call is issued. -/
theorem plotLogger_log_arity (s : PlotLoggerState) (w : Nat) (args : List Stat) (reply : Nat)
    (hwin : s.win = some w) (hlen : args.length ≠ 2) :
    VisdomPlotLogger.log s args reply =
      Except.error (VisdomError.valueError
        "When logging to VisdomPlotLogger, must pass in x and y values (and optionally z).") := by
  unfold VisdomPlotLogger.log
  rw [hwin]
  simp [hlen]

/-- Witness for C3: a three-value `log` call on a logger with stored
window id 5 fails with `ValueError`. -/
theorem plotLogger_log_arity_witness :
    VisdomPlotLogger.log
      { win := some 5, env := none, opts := [], fields := [], chart := ChartOp.scatter }
      [Stat.leaf 1, Stat.leaf 2, Stat.leaf 3] 0 =
      Except.error (VisdomError.valueError
        "When logging to VisdomPlotLogger, must pass in x and y values (and optionally z).") :=
  plotLogger_log_arity
    { win := some 5, env := none, opts := [], fields := [], chart := ChartOp.scatter }
    5 [Stat.leaf 1, Stat.leaf 2, Stat.leaf 3] 0 rfl (by decide)

/-- Claim C10: with a stored window identifier, a successful two-argument
`log` call leaves the logger state completely unchanged (window id,
environment, options, fields and chart operation), the update call return
value being discarded; the invocation emits one `updateTrace` call. -/
theorem plotLogger_log_update_frame (s : PlotLoggerState) (w : Nat) (args : List Stat)
    (reply : Nat) (hwin : s.win = some w) (hlen : args.length = 2) :
    VisdomPlotLogger.log s args reply =
      Except.ok (s, [VizCall.updateTrace [args[0]!] [args[1]!] (some w) s.env s.opts]) := by
  unfold VisdomPlotLogger.log
  rw [hwin]
  simp [hlen]

/-- Witness for C10: a two-value update call on a logger with stored
window id 7 returns the state unchanged. -/
theorem plotLogger_log_update_frame_witness :
    VisdomPlotLogger.log
      { win := some 7, env := some "main", opts := [("title", "t")], fields := [["a"]],
        chart := ChartOp.line }
      [Stat.leaf 1, Stat.leaf 2] 9 =
      Except.ok
        ({ win := some 7, env := some "main", opts := [("title", "t")], fields := [["a"]],
           chart := ChartOp.line },
         [VizCall.updateTrace [Stat.leaf 1] [Stat.leaf 2] (some 7) (some "main")
            [("title", "t")]]) :=
  plotLogger_log_update_frame
    { win := some 7, env := some "main", opts := [("title", "t")], fields := [["a"]],
      chart := ChartOp.line }
    7 [Stat.leaf 1, Stat.leaf 2] 9 rfl (by decide)

/-- Number of plot-window-creating calls (`viz.scatter`/`viz.line`) in a
trace. -/
def countCreate (cs : List VizCall) : Nat :=
  (cs.filter VizCall.isCreate).length

/-- Invoking the stored chart operation always yields a window-creating
call. -/
theorem chartOp_call_isCreate (op : ChartOp) (X : List (List Stat)) (w : Option Nat)
    (e : Option String) (o : Opts) : (op.call X w e o).isCreate = true := by
  cases op <;> rfl

/-- Invoking the stored chart operation never yields a save call. -/
theorem chartOp_call_not_save (op : ChartOp) (X : List (List Stat)) (w : Option Nat)
    (e : Option String) (o : Opts) : (op.call X w e o).isSave = false := by
  cases op <;> rfl

/-- Claim C2: a `VisdomPlotLogger`'s first `log` call, made while no
window identifier is stored, issues exactly one create-new-plot call and
stores the returned window identifier; every `log` call made while a
window identifier is stored issues exactly one append-to-existing-trace
call passing that stored identifier, leaves the state unchanged (so the
identifier persists for all later calls), and issues no create call. -/
theorem plotLogger_window_lifecycle :
    (∀ (s : PlotLoggerState) (args : List Stat) (reply : Nat) (s1 : PlotLoggerState)
        (cs : List VizCall), s.win = none →
      VisdomPlotLogger.log s args reply = Except.ok (s1, cs) →
      cs = [s.chart.call [args] none s.env s.opts] ∧ countCreate cs = 1 ∧
        s1.win = some reply)
    ∧ (∀ (s : PlotLoggerState) (w : Nat) (args : List Stat) (reply : Nat)
        (s1 : PlotLoggerState) (cs : List VizCall), s.win = some w →
      VisdomPlotLogger.log s args reply = Except.ok (s1, cs) →
      s1 = s ∧ (∃ x y, args = [x, y] ∧
        cs = [VizCall.updateTrace [x] [y] (some w) s.env s.opts]) ∧
      countCreate cs = 0) := by
  constructor
  · intro s args reply s1 cs hwin hlog
    unfold VisdomPlotLogger.log at hlog
    rw [hwin] at hlog
    simp only [Except.ok.injEq, Prod.mk.injEq] at hlog
    obtain ⟨hs1, hcs⟩ := hlog
    subst hcs
    refine ⟨rfl, ?_, ?_⟩
    · simp [countCreate, chartOp_call_isCreate]
    · rw [← hs1]
  · intro s w args reply s1 cs hwin hlog
    unfold VisdomPlotLogger.log at hlog
    rw [hwin] at hlog
    by_cases hlen : args.length = 2
    · simp only [hlen, if_pos, Except.ok.injEq, Prod.mk.injEq] at hlog
      obtain ⟨hs1, hcs⟩ := hlog
      obtain ⟨x, y, rfl⟩ := List.length_eq_two.mp hlen
      subst hcs
      refine ⟨hs1.symm, ⟨x, y, rfl, by simp⟩, ?_⟩
      simp [countCreate, VizCall.isCreate]
    · simp [hlen] at hlog

/-- Witness for C2: a logger with no stored window id, logging `(1, 2)`
with server reply 3, then logging `(4, 5)` on the resulting state: the
first call creates, the second updates window 3 and preserves the state. -/
theorem plotLogger_window_lifecycle_witness :
    ([VizCall.scatter [[Stat.leaf 1, Stat.leaf 2]] none none []] =
        [ChartOp.call ChartOp.scatter [[Stat.leaf 1, Stat.leaf 2]] none none []]
      ∧ countCreate [VizCall.scatter [[Stat.leaf 1, Stat.leaf 2]] none none []] = 1
      ∧ (some 3 : Option Nat) = some 3)
    ∧ (({ win := some 3, env := none, opts := [], fields := [], chart := ChartOp.scatter }
          : PlotLoggerState) =
        { win := some 3, env := none, opts := [], fields := [], chart := ChartOp.scatter }
      ∧ (∃ x y, [Stat.leaf 4, Stat.leaf 5] = [x, y] ∧
          [VizCall.updateTrace [Stat.leaf 4] [Stat.leaf 5] (some 3) none []] =
            [VizCall.updateTrace [x] [y] (some 3) none []])
      ∧ countCreate [VizCall.updateTrace [Stat.leaf 4] [Stat.leaf 5] (some 3) none []] = 0) :=
  ⟨(plotLogger_window_lifecycle.1
      { win := none, env := none, opts := [], fields := [], chart := ChartOp.scatter }
      [Stat.leaf 1, Stat.leaf 2] 3
      { win := some 3, env := none, opts := [], fields := [], chart := ChartOp.scatter }
      [VizCall.scatter [[Stat.leaf 1, Stat.leaf 2]] none none []] rfl rfl),
   (plotLogger_window_lifecycle.2
      { win := some 3, env := none, opts := [], fields := [], chart := ChartOp.scatter }
      3 [Stat.leaf 4, Stat.leaf 5] 9
      { win := some 3, env := none, opts := [], fields := [], chart := ChartOp.scatter }
      [VizCall.updateTrace [Stat.leaf 4] [Stat.leaf 5] (some 3) none []] rfl rfl)⟩

/-- Claim C4: a freshly constructed `VisdomTextLogger` in REPLACE mode,
after `log "a"` then `log "b"`, has accumulated text `"b"`; in APPEND mode
the same sequence yields `"a<br>b"`.  In general, new text is concatenated
after a `"<br>"` separator exactly when the mode is APPEND and prior text
exists, and replaces the buffer outright otherwise (REPLACE mode, or an
empty buffer). -/
theorem textLogger_accumulation :
    (∀ (fields : List (List String)) (win : Option Nat) (env : Option String) (opts : Opts)
        (r1 r2 : Nat) (s : TextLoggerState),
      VisdomTextLogger.init fields win env opts "REPLACE" = Except.ok s →
      ((VisdomTextLogger.log ((VisdomTextLogger.log s "a" r1).1) "b" r2).1).text = "b")
    ∧ (∀ (fields : List (List String)) (win : Option Nat) (env : Option String) (opts : Opts)
        (r1 r2 : Nat) (s : TextLoggerState),
      VisdomTextLogger.init fields win env opts "APPEND" = Except.ok s →
      ((VisdomTextLogger.log ((VisdomTextLogger.log s "a" r1).1) "b" r2).1).text = "a<br>b")
    ∧ (∀ (s : TextLoggerState) (msg : String) (r : Nat),
        s.update_type = "APPEND" → s.text ≠ "" →
        ((VisdomTextLogger.log s msg r).1).text = s.text ++ "<br>" ++ msg)
    ∧ (∀ (s : TextLoggerState) (msg : String) (r : Nat), s.text = "" →
        ((VisdomTextLogger.log s msg r).1).text = msg)
    ∧ (∀ (s : TextLoggerState) (msg : String) (r : Nat), s.update_type = "REPLACE" →
        ((VisdomTextLogger.log s msg r).1).text = msg) := by
  refine ⟨?_, ?_, ?_, ?_, ?_⟩
  · intro fields win env opts r1 r2 s h
    unfold VisdomTextLogger.init at h
    rw [if_pos (by decide)] at h
    injection h with h
    subst h
    rfl
  · intro fields win env opts r1 r2 s h
    unfold VisdomTextLogger.init at h
    rw [if_pos (by decide)] at h
    injection h with h
    subst h
    rfl
  · intro s msg r hmode htext
    unfold VisdomTextLogger.log
    simp [hmode, htext]
  · intro s msg r htext
    unfold VisdomTextLogger.log
    simp [htext]
  · intro s msg r hmode
    unfold VisdomTextLogger.log
    simp [hmode]

/-- Witness for C4: concrete REPLACE and APPEND loggers, each logging
`"a"` then `"b"`. -/
theorem textLogger_accumulation_witness :
    ((VisdomTextLogger.log
        ((VisdomTextLogger.log
          { win := none, env := none, opts := [], fields := [], text := "",
            update_type := "REPLACE" } "a" 1).1) "b" 2).1).text = "b"
    ∧ ((VisdomTextLogger.log
        ((VisdomTextLogger.log
          { win := none, env := none, opts := [], fields := [], text := "",
            update_type := "APPEND" } "a" 1).1) "b" 2).1).text = "a<br>b" :=
  ⟨textLogger_accumulation.1 [] none none [] 1 2
      { win := none, env := none, opts := [], fields := [], text := "",
        update_type := "REPLACE" } rfl,
   textLogger_accumulation.2.1 [] none none [] 1 2
      { win := none, env := none, opts := [], fields := [], text := "",
        update_type := "APPEND" } rfl⟩

/-- Claim C5: the field-gathering resolution of `_log_all` yields exactly
the value stored at a path whenever every key along the path is present
(`pathLookup` succeeds), and fails with `KeyError` naming the first absent
intermediate key otherwise. -/
theorem statAccessor_path_resolution (stats : Stat) (field : List String) :
    (∀ v, pathLookup stats field = some v → resolveField stats field = Except.ok v)
    ∧ (∀ k, firstMissingKey stats field = some k →
        resolveField stats field = Except.error (VisdomError.keyError k)) := by
  induction field generalizing stats with
  | nil =>
      refine ⟨?_, ?_⟩
      · intro v h
        simp only [pathLookup, Option.some.injEq] at h
        subst h
        rfl
      · intro k h
        simp [firstMissingKey] at h
  | cons f rest ih =>
      cases stats with
      | leaf v =>
          refine ⟨?_, ?_⟩
          · intro x h
            simp [pathLookup] at h
          · intro k h
            simp [firstMissingKey] at h
      | node m =>
          refine ⟨?_, ?_⟩
          · intro x h
            simp only [pathLookup] at h
            cases hlk : List.lookup f m with
            | none => rw [hlk] at h; simp at h
            | some s =>
                rw [hlk] at h
                have hrec := (ih s).1 x h
                simp only [resolveField, Stat.getItem, hlk]
                exact hrec
          · intro k h
            simp only [firstMissingKey] at h
            cases hlk : List.lookup f m with
            | none =>
                rw [hlk] at h
                simp only [Option.some.injEq] at h
                subst h
                simp [resolveField, Stat.getItem, hlk]
            | some s =>
                rw [hlk] at h
                have hrec := (ih s).2 k h
                simp only [resolveField, Stat.getItem, hlk]
                exact hrec

/-- Witness for C5: a two-level statistics mapping where the path
`progress.percent` resolves to the stored leaf and `progress.samples`
fails with `KeyError` on the absent key. -/
theorem statAccessor_path_resolution_witness :
    resolveField (Stat.node [("progress", Stat.node [("percent", Stat.leaf 42)])])
        ["progress", "percent"] = Except.ok (Stat.leaf 42)
    ∧ resolveField (Stat.node [("progress", Stat.node [("percent", Stat.leaf 42)])])
        ["progress", "samples"] = Except.error (VisdomError.keyError "samples") :=
  ⟨(statAccessor_path_resolution
      (Stat.node [("progress", Stat.node [("percent", Stat.leaf 42)])])
      ["progress", "percent"]).1 (Stat.leaf 42) rfl,
   (statAccessor_path_resolution
      (Stat.node [("progress", Stat.node [("percent", Stat.leaf 42)])])
      ["progress", "samples"]).2 "samples" rfl⟩

/-- Claim C6: constructing a `VisdomTextLogger` with an accumulation mode
outside REPLACE/APPEND fails with `ValueError` (the InvalidArgument
error) and, in this model, the constructor issues no remote call at all;
construction with a valid mode succeeds and stores that mode (with an
empty text buffer). -/
theorem textLogger_init_validation (fields : List (List String)) (win : Option Nat)
    (env : Option String) (opts : Opts) :
    (∀ u, u ∉ validUpdateTypes →
      VisdomTextLogger.init fields win env opts u =
        Except.error (VisdomError.valueError
          ("update type " ++ u ++ " not found. Must be one of REPLACE, APPEND")))
    ∧ (∀ u, u ∈ validUpdateTypes →
      VisdomTextLogger.init fields win env opts u =
        Except.ok { win := win, env := env, opts := opts, fields := fields, text := "",
                    update_type := u }) := by
  constructor
  · intro u h
    simp [VisdomTextLogger.init, h]
  · intro u h
    simp [VisdomTextLogger.init, h]

/-- Witness for C6: `update_type = "BOGUS"` fails, `"APPEND"` succeeds
and is stored. -/
theorem textLogger_init_validation_witness :
    VisdomTextLogger.init [] none none [] "BOGUS" =
      Except.error (VisdomError.valueError
        ("update type " ++ "BOGUS" ++ " not found. Must be one of REPLACE, APPEND"))
    ∧ VisdomTextLogger.init [] none none [] "APPEND" =
      Except.ok { win := none, env := none, opts := [], fields := [], text := "",
                  update_type := "APPEND" } :=
  ⟨(textLogger_init_validation [] none none []).1 "BOGUS" (by decide),
   (textLogger_init_validation [] none none []).2 "APPEND" (by decide)⟩

/-- Claim C7: a successful end-of-epoch hook invocation on any concrete
logger issues exactly one session-persistence (`viz.save`) call: the
epoch hook appends one `save` call to the field-logging calls of the
superclass hook, and no `log` implementation of a concrete logger
(`VisdomPlotLogger`, `VisdomTextLogger`, generic `VisdomLogger`) ever
emits a `save` call itself. -/
theorem epoch_single_save :
    (∀ logCalls : List VizCall, (∀ c ∈ logCalls, c.isSave = false) →
      countSave (BaseVisdomLogger.epoch logCalls) = 1)
    ∧ (∀ (s : PlotLoggerState) (args : List Stat) (reply : Nat) (s1 : PlotLoggerState)
        (cs : List VizCall), VisdomPlotLogger.log s args reply = Except.ok (s1, cs) →
        ∀ c ∈ cs, c.isSave = false)
    ∧ (∀ (s : TextLoggerState) (msg : String) (reply : Nat),
        ∀ c ∈ (VisdomTextLogger.log s msg reply).2, c.isSave = false)
    ∧ (∀ (s : GenericLoggerState) (args : List Stat) (reply : Nat),
        ∀ c ∈ (VisdomLogger.log s args reply).2, c.isSave = false) := by
  refine ⟨?_, ?_, ?_, ?_⟩
  · intro logCalls h
    unfold BaseVisdomLogger.epoch Logger.epochCalls countSave
    rw [List.filter_append]
    have hnil : logCalls.filter VizCall.isSave = [] := by
      rw [List.filter_eq_nil_iff]
      intro c hc
      simp [h c hc]
    rw [hnil]
    rfl
  · intro s args reply s1 cs hlog c hc
    unfold VisdomPlotLogger.log at hlog
    cases hwin : s.win with
    | some w =>
        rw [hwin] at hlog
        by_cases hlen : args.length = 2
        · simp only [hlen, if_pos, Except.ok.injEq, Prod.mk.injEq] at hlog
          rw [← hlog.2] at hc
          simp only [List.mem_singleton] at hc
          subst hc
          rfl
        · simp [hlen] at hlog
    | none =>
        rw [hwin] at hlog
        simp only [Except.ok.injEq, Prod.mk.injEq] at hlog
        rw [← hlog.2] at hc
        simp only [List.mem_singleton] at hc
        subst hc
        exact chartOp_call_not_save s.chart [args] none s.env s.opts
  · intro s msg reply c hc
    unfold VisdomTextLogger.log at hc
    simp only [List.mem_singleton] at hc
    subst hc
    rfl
  · intro s args reply c hc
    unfold VisdomLogger.log at hc
    simp only [List.mem_singleton] at hc
    subst hc
    rfl

/-- Witness for C7: an epoch hook whose field-logging part is a single
text call persists the session exactly once. -/
theorem epoch_single_save_witness :
    countSave (BaseVisdomLogger.epoch [VizCall.text ["x"] none none []]) = 1 :=
  epoch_single_save.1 [VizCall.text ["x"] none none []] (by decide)

/-- Claim C8: a `VisdomSaver` constructed with interval `[(1, 'epoch')]`
and any environment list fires, on each epoch hook invocation, exactly one
persistence call, and that single call carries the full configured
environment list. -/
theorem visdomSaver_epoch_single_call (envs : Option (List String)) :
    VisdomSaver.fireHook (VisdomSaver.init envs [(1, "epoch")]) "epoch" =
      [VizCall.save envs]
    ∧ countSave (VisdomSaver.fireHook (VisdomSaver.init envs [(1, "epoch")]) "epoch") = 1 := by
  constructor
  · simp [VisdomSaver.fireHook, VisdomSaver.init, VisdomSaver.save]
  · simp [VisdomSaver.fireHook, VisdomSaver.init, VisdomSaver.save, countSave,
      VizCall.isSave]
